import Mathlib

/-!
Verification of the STEF Global thermal-metabolic risk engine.

The repository consists of two near-duplicate Streamlit scripts,
`stefpro.py` and `stefpro69.py`.  The computational core (temperature
acquisition with fallback, lethal-threshold and risk classification,
SMR and Q10, population-decay projection) is embedded shallowly below:
exact rational arithmetic models the float formulas of the source, and
real-valued definitions model the transcendental parts (cos, sin, exp).
Both files' computation blocks are embedded separately, in namespaces
`Stefpro` and `Stefpro69`, translated line by line from the source.
-/

namespace StefGlobal

/-- Python's `int()` applied to a fraction: truncation toward zero. -/
def pyInt (q : ℚ) : ℤ := if 0 ≤ q then ⌊q⌋ else -⌊-q⌋

/-- A resolved temperature reading, as returned by both providers in the
source: a success flag, the temperature in Celsius, and a source label.
(The wall-clock timestamp the source attaches is presentation only and
is not modelled.) -/
structure TempReading where
  success : Bool
  temperature : ℝ
  source : String

/-- Outcome of the single remote HTTP query made by
`get_sea_temperature_live`: either an exception was raised at some point
(timeout, connection failure, JSON parse error, missing field), or a
response arrived with a status code and, when the payload was
well-formed, the numeric Kelvin value at the fixed position
`data['table']['rows'][0][3]`. -/
inductive RemoteOutcome where
  | failure
  | response (status : ℕ) (kelvin : Option ℝ)

/-- Degrees to radians, `np.deg2rad`. -/
noncomputable def deg2rad (x : ℝ) : ℝ := x * (Real.pi / 180)

/-- Python's `round(x, 1)`: rounding to one decimal place, idealized as
exact rounding of the real `10·x` to the nearest integer. -/
noncomputable def round1 (x : ℝ) : ℝ := ((round (10 * x) : ℤ) : ℝ) / 10

/-- Geographic fallback model, from `get_temperature_fallback`
(stefpro.py lines 61-74, stefpro69.py lines 41-50): base temperature
`28·cos(deg2rad |lat|) + 5`, seasonal term `3·sin((month − 3)·π/6)`,
clamped to `[10, 36]` and rounded to one decimal.  The longitude
argument is accepted but unused, exactly as in the source; the current
month is passed explicitly in place of `datetime.now().month`. -/
noncomputable def get_temperature_fallback (lat lon : ℝ) (month : ℕ) : TempReading :=
  let base_temp := 28 * Real.cos (deg2rad |lat|) + 5
  let seasonal_variation := 3 * Real.sin (((month : ℝ) - 3) * Real.pi / 6)
  let temp := base_temp + seasonal_variation
  { success := false
    temperature := round1 (max 10 (min 36 temp))
    source := "Geographic Model (Estimated)" }

/-- Live provider, from `get_sea_temperature_live` (stefpro.py lines
26-59, stefpro69.py lines 20-39): on an HTTP 200 response whose payload
yields a Kelvin value, return it converted to Celsius and rounded to one
decimal with the live source label; in every other case (exception, any
non-200 status, a 200 response whose payload access raises) control
reaches the fallback call. -/
noncomputable def get_sea_temperature_live (lat lon : ℝ) (month : ℕ)
    (o : RemoteOutcome) : TempReading :=
  match o with
  | .response status payload =>
      if status = 200 then
        match payload with
        | some temp_kelvin =>
            { success := true
              temperature := round1 (temp_kelvin - 273.15)
              source := "NOAA Satellite (Live)" }
        | none => get_temperature_fallback lat lon month
      else get_temperature_fallback lat lon month
  | .failure => get_temperature_fallback lat lon month

/-- The tier classification result: integer risk score and status label. -/
structure RiskResult where
  risk : ℤ
  status : String
  deriving DecidableEq

/-- The three climate scenarios offered by the selectbox; the shift is
determined by the substring tests `"1.5" in scenario` / `"3.2" in
scenario` over the three fixed option strings. -/
inductive ScenarioChoice where
  | baseline
  | ssp126
  | ssp585
  deriving DecidableEq

namespace Stefpro

/-- Scenario shift, stefpro.py lines 322-326. -/
def temp_shift : ScenarioChoice → ℚ
  | .baseline => 0
  | .ssp126 => 1.5
  | .ssp585 => 3.2

/-- Effective temperature, stefpro.py line 328. -/
def effective_temp (temperature shift : ℚ) : ℚ := temperature + shift

/-- stefpro.py line 331. -/
def base_limit : ℚ := 31.5

/-- stefpro.py line 332. -/
def starvation_penalty (ni : ℚ) : ℚ := 1.07 * (1 - ni)

/-- Lethal threshold, stefpro.py line 333. -/
def T_critical (ni : ℚ) : ℚ := base_limit - starvation_penalty ni

/-- Risk classification, stefpro.py lines 336-351: an if/elif chain,
first match wins, each non-lethal branch truncated by Python `int()`. -/
def classify (T ni : ℚ) : RiskResult :=
  if T ≥ T_critical ni then
    ⟨100, "LETHAL"⟩
  else if T ≥ T_critical ni - 2 then
    ⟨pyInt (75 + (T - (T_critical ni - 2)) / 2 * 25), "CRITICAL"⟩
  else if T ≥ 25 then
    ⟨pyInt (50 + (T - 25) / (T_critical ni - 2 - 25) * 25), "HIGH RISK"⟩
  else
    ⟨pyInt (T / 25 * 50), "STABLE"⟩

/-- The integer risk score of `classify`. -/
def risk_score (T ni : ℚ) : ℤ := (classify T ni).risk

/-- Standard metabolic rate, stefpro.py line 354. -/
noncomputable def smr (T : ℚ) : ℝ := 72.4 * Real.exp (0.0567 * (T : ℝ))

/-- Thermal sensitivity, stefpro.py line 357. -/
def q10 (T : ℚ) : ℚ := if T ≥ 25 then 2.45 else 2.07

/-- Decay rate of the population forecast, stefpro.py line 524. -/
def decay_rate (risk : ℤ) : ℚ := 0.05 + (risk : ℚ) / 500

/-- Population percentage in year `2026 + i`, stefpro.py line 525. -/
noncomputable def population_pct (risk : ℤ) (i : ℕ) : ℝ :=
  100 * Real.exp (-((decay_rate risk : ℝ)) * (i : ℝ))

/-- The 25-entry population series over `np.arange(2026, 2051)`,
stefpro.py lines 522-525. -/
noncomputable def population (risk : ℤ) : List (ℕ × ℝ) :=
  (List.range 25).map (fun i => (2026 + i, population_pct risk i))

/-- First year whose population entry is below 50, else none;
stefpro.py line 539. -/
noncomputable def collapse_year (risk : ℤ) : Option ℕ :=
  ((population risk).find? (fun p => decide (p.2 < 50))).map Prod.fst

end Stefpro

namespace Stefpro69

/-- Scenario shift, stefpro69.py lines 218-222. -/
def temp_shift : ScenarioChoice → ℚ
  | .baseline => 0
  | .ssp126 => 1.5
  | .ssp585 => 3.2

/-- Effective temperature, stefpro69.py line 224. -/
def effective_temp (temperature shift : ℚ) : ℚ := temperature + shift

/-- stefpro69.py line 226. -/
def base_limit : ℚ := 31.5

/-- stefpro69.py line 227. -/
def starvation_penalty (ni : ℚ) : ℚ := 1.07 * (1 - ni)

/-- Lethal threshold, stefpro69.py line 228. -/
def T_critical (ni : ℚ) : ℚ := base_limit - starvation_penalty ni

/-- Risk classification, stefpro69.py lines 230-245. -/
def classify (T ni : ℚ) : RiskResult :=
  if T ≥ T_critical ni then
    ⟨100, "LETHAL"⟩
  else if T ≥ T_critical ni - 2 then
    ⟨pyInt (75 + (T - (T_critical ni - 2)) / 2 * 25), "CRITICAL"⟩
  else if T ≥ 25 then
    ⟨pyInt (50 + (T - 25) / (T_critical ni - 2 - 25) * 25), "HIGH RISK"⟩
  else
    ⟨pyInt (T / 25 * 50), "STABLE"⟩

/-- The integer risk score of `classify`. -/
def risk_score (T ni : ℚ) : ℤ := (classify T ni).risk

/-- Standard metabolic rate, stefpro69.py line 247. -/
noncomputable def smr (T : ℚ) : ℝ := 72.4 * Real.exp (0.0567 * (T : ℝ))

/-- Thermal sensitivity, stefpro69.py line 248. -/
def q10 (T : ℚ) : ℚ := if T ≥ 25 then 2.45 else 2.07

/-- Decay rate of the population forecast, stefpro69.py line 397. -/
def decay_rate (risk : ℤ) : ℚ := 0.05 + (risk : ℚ) / 500

/-- Population percentage in year `2026 + i`, stefpro69.py line 398. -/
noncomputable def population_pct (risk : ℤ) (i : ℕ) : ℝ :=
  100 * Real.exp (-((decay_rate risk : ℝ)) * (i : ℝ))

/-- The 25-entry population series, stefpro69.py lines 396-398. -/
noncomputable def population (risk : ℤ) : List (ℕ × ℝ) :=
  (List.range 25).map (fun i => (2026 + i, population_pct risk i))

/-- First year whose population entry is below 50, else none;
stefpro69.py line 411. -/
noncomputable def collapse_year (risk : ℤ) : Option ℕ :=
  ((population risk).find? (fun p => decide (p.2 < 50))).map Prod.fst

end Stefpro69

/-- Spec-side classifier for the amended claim C1, written from the
claim's words: branches evaluated in strict order with first match
winning over the threshold `lethal_threshold = 31.5 − 1.07·(1 − NI)`,
each non-lethal score truncated toward zero by Python `int()` (the
amendment: the original claim said `round`). -/
def claim1_spec_classify (T ni : ℚ) : RiskResult :=
  let lethal_threshold : ℚ := 31.5 - 1.07 * (1 - ni)
  if T ≥ lethal_threshold then
    ⟨100, "LETHAL"⟩
  else if T ≥ lethal_threshold - 2 then
    ⟨pyInt (75 + (T - (lethal_threshold - 2)) / 2 * 25), "CRITICAL"⟩
  else if T ≥ 25 then
    ⟨pyInt (50 + (T - 25) / (lethal_threshold - 2 - 25) * 25), "HIGH RISK"⟩
  else
    ⟨pyInt (T / 25 * 50), "STABLE"⟩

/-! Helper lemmas about `pyInt` and the lethal threshold. -/

theorem pyInt_eq_floor {q : ℚ} (h : 0 ≤ q) : pyInt q = ⌊q⌋ := if_pos h

theorem pyInt_mono {a b : ℚ} (h : a ≤ b) : pyInt a ≤ pyInt b := by
  unfold pyInt
  split_ifs with ha hb hb
  · exact Int.floor_mono h
  · exact absurd (ha.trans h) hb
  · have h1 : (0 : ℤ) ≤ ⌊b⌋ := Int.floor_nonneg.mpr hb
    have h2 : (0 : ℤ) ≤ ⌊-a⌋ := Int.floor_nonneg.mpr (by linarith [lt_of_not_le ha])
    omega
  · have := Int.floor_mono (neg_le_neg h)
    omega

theorem pyInt_nonneg {q : ℚ} (h : 0 ≤ q) : 0 ≤ pyInt q := by
  rw [pyInt_eq_floor h]; exact Int.floor_nonneg.mpr h

theorem pyInt_lt_of_lt {q : ℚ} {n : ℤ} (h0 : 0 ≤ q) (h : q < (n : ℚ)) : pyInt q < n := by
  rw [pyInt_eq_floor h0]; exact Int.floor_lt.mpr h

theorem le_pyInt_of_le {q : ℚ} {n : ℤ} (h0 : 0 ≤ q) (h : (n : ℚ) ≤ q) : n ≤ pyInt q := by
  rw [pyInt_eq_floor h0]; exact Int.le_floor.mpr h

theorem pyInt_nonpos {q : ℚ} (h : q ≤ 0) : pyInt q ≤ 0 := by
  unfold pyInt
  split_ifs with h0
  · simpa using Int.floor_le_floor (α := ℚ) h
  · have : (0 : ℤ) ≤ ⌊-q⌋ := Int.floor_nonneg.mpr (by linarith)
    omega

theorem T_critical_ge {ni : ℚ} (h0 : 0 ≤ ni) : (30.43 : ℚ) ≤ Stefpro.T_critical ni := by
  unfold Stefpro.T_critical Stefpro.base_limit Stefpro.starvation_penalty
  nlinarith

theorem T_critical_le {ni : ℚ} (h1 : ni ≤ 1) : Stefpro.T_critical ni ≤ 31.5 := by
  unfold Stefpro.T_critical Stefpro.base_limit Stefpro.starvation_penalty
  nlinarith

/-! Branch characterizations of the risk score. -/

theorem risk_score_lethal {T ni : ℚ} (h : T ≥ Stefpro.T_critical ni) :
    Stefpro.risk_score T ni = 100 := by
  unfold Stefpro.risk_score Stefpro.classify
  rw [if_pos h]

theorem risk_score_critical {T ni : ℚ} (hL : ¬T ≥ Stefpro.T_critical ni)
    (hC : T ≥ Stefpro.T_critical ni - 2) :
    Stefpro.risk_score T ni = pyInt (75 + (T - (Stefpro.T_critical ni - 2)) / 2 * 25) := by
  unfold Stefpro.risk_score Stefpro.classify
  rw [if_neg hL, if_pos hC]

theorem risk_score_high {T ni : ℚ} (hL : ¬T ≥ Stefpro.T_critical ni)
    (hC : ¬T ≥ Stefpro.T_critical ni - 2) (hH : T ≥ 25) :
    Stefpro.risk_score T ni = pyInt (50 + (T - 25) / (Stefpro.T_critical ni - 2 - 25) * 25) := by
  unfold Stefpro.risk_score Stefpro.classify
  rw [if_neg hL, if_neg hC, if_pos hH]

theorem risk_score_stable {T ni : ℚ} (hL : ¬T ≥ Stefpro.T_critical ni)
    (hC : ¬T ≥ Stefpro.T_critical ni - 2) (hH : ¬T ≥ 25) :
    Stefpro.risk_score T ni = pyInt (T / 25 * 50) := by
  unfold Stefpro.risk_score Stefpro.classify
  rw [if_neg hL, if_neg hC, if_neg hH]

/-! Claims about the lethal threshold. -/

/-- C4: the lethal threshold is `31.5 − 1.07·(1 − NI)`; for `NI ∈ [0,1]`
it lies in `[30.43, 31.5]`, it is monotone in `NI` (a lower nutritional
index never raises it), and it is a function of `NI` alone (its
definition takes no temperature argument). -/
theorem claim4_lethal_threshold (ni : ℚ) (h0 : 0 ≤ ni) (h1 : ni ≤ 1) :
    Stefpro.T_critical ni = 31.5 - 1.07 * (1 - ni) ∧
    (30.43 : ℚ) ≤ Stefpro.T_critical ni ∧
    Stefpro.T_critical ni ≤ 31.5 ∧
    ∀ ni', ni' ≤ ni → Stefpro.T_critical ni' ≤ Stefpro.T_critical ni := by
  refine ⟨rfl, T_critical_ge h0, T_critical_le h1, fun ni' h => ?_⟩
  unfold Stefpro.T_critical Stefpro.base_limit Stefpro.starvation_penalty
  nlinarith

/-- Witness for C4 at `NI = 1/2`. -/
theorem claim4_witness :
    (0 ≤ (1/2 : ℚ) ∧ (1/2 : ℚ) ≤ 1) ∧
    (Stefpro.T_critical (1/2) = 31.5 - 1.07 * (1 - 1/2) ∧
      (30.43 : ℚ) ≤ Stefpro.T_critical (1/2) ∧
      Stefpro.T_critical (1/2) ≤ 31.5 ∧
      ∀ ni', ni' ≤ (1/2 : ℚ) → Stefpro.T_critical ni' ≤ Stefpro.T_critical (1/2)) :=
  ⟨⟨by norm_num, by norm_num⟩,
    claim4_lethal_threshold (1/2) (by norm_num) (by norm_num)⟩

/-- C3: for every `NI ∈ [0,1]` the HIGH-RISK branch denominator
`T_critical − 2 − 25 = 31.5 − 1.07·(1−NI) − 27` is at least `3.43`,
hence strictly positive, so the branch never divides by zero or by a
negative quantity; the guarded case `T_critical − 2 ≤ 25` the spec
describes is unreachable for `NI ∈ [0,1]`. -/
theorem claim3_denominator_safe (ni : ℚ) (h0 : 0 ≤ ni) (h1 : ni ≤ 1) :
    Stefpro.T_critical ni - 2 - 25 = 31.5 - 1.07 * (1 - ni) - 27 ∧
    (3.43 : ℚ) ≤ Stefpro.T_critical ni - 2 - 25 ∧
    0 < Stefpro.T_critical ni - 2 - 25 ∧
    ¬(Stefpro.T_critical ni - 2 ≤ 25) := by
  have h := T_critical_ge h0
  refine ⟨?_, by linarith, by linarith, by intro hc; linarith⟩
  unfold Stefpro.T_critical Stefpro.base_limit Stefpro.starvation_penalty
  ring

/-- C1 counterexample: at effective temperature `T = 25.5` and `NI = 1`
the HIGH-RISK branch of the code truncates `50 + 0.5/4.5·25 ≈ 52.78`
to `52`, while the claim's `round` formula gives `53`; the claim as
stated is therefore false at this input. -/
theorem claim1_counterexample :
    (Stefpro.classify (51/2) 1).risk = 52 ∧
    round ((50 : ℚ) + ((51/2 : ℚ) - 25) / (Stefpro.T_critical 1 - 2 - 25) * 25) = 53 := by
  constructor
  · norm_num [Stefpro.classify, Stefpro.T_critical, Stefpro.base_limit,
      Stefpro.starvation_penalty, pyInt]
  · norm_num [Stefpro.T_critical, Stefpro.base_limit, Stefpro.starvation_penalty, round_eq]

/-- C1 amended: for every finite effective temperature `T` and
`NI ∈ [0,1]` the classification evaluates its branches in strict order
with first match winning, with the scores of the three non-lethal
branches truncated toward zero by Python `int()` rather than rounded:
the code classifier agrees with the branch enumeration written from the
amended claim's words. -/
theorem claim1_classification (T ni : ℚ) (h0 : 0 ≤ ni) (h1 : ni ≤ 1) :
    Stefpro.classify T ni = claim1_spec_classify T ni := rfl

/-- Witness for C1 at `T = 27`, `NI = 1`. -/
theorem claim1_witness :
    (0 ≤ (1 : ℚ) ∧ (1 : ℚ) ≤ 1) ∧
    Stefpro.classify 27 1 = claim1_spec_classify 27 1 :=
  ⟨⟨by norm_num, le_refl 1⟩, claim1_classification 27 1 (by norm_num) (le_refl 1)⟩

/-- C2 counterexample: the code performs no clamping; at effective
temperature `T = −25` and `NI = 1` the STABLE branch yields risk score
`int((−25/25)·50) = −50`, outside `[0,100]`, so the claim as stated
fails for this finite temperature. -/
theorem claim2_counterexample :
    Stefpro.risk_score (-25) 1 = -50 ∧ Stefpro.risk_score (-25) 1 < 0 := by
  have h : Stefpro.risk_score (-25) 1 = -50 := by
    norm_num [Stefpro.risk_score, Stefpro.classify, Stefpro.T_critical,
      Stefpro.base_limit, Stefpro.starvation_penalty, pyInt]
  exact ⟨h, by rw [h]; norm_num⟩

/-- C2 amended: for every nonnegative effective temperature `T` and
`NI ∈ [0,1]` the computed risk score lies in `[0,100]`; the bound is a
consequence of the branch formulas themselves (no clamping exists in
the code, and negative `T` escapes the interval). -/
theorem claim2_score_in_range (T ni : ℚ) (hT : 0 ≤ T) (h0 : 0 ≤ ni) (h1 : ni ≤ 1) :
    0 ≤ Stefpro.risk_score T ni ∧ Stefpro.risk_score T ni ≤ 100 := by
  have htc1 := T_critical_ge h0
  have htc2 := T_critical_le h1
  unfold Stefpro.risk_score Stefpro.classify
  split_ifs with hL hC hH
  · exact ⟨by norm_num, by norm_num⟩
  · refine ⟨pyInt_nonneg (by linarith), ?_⟩
    have hv : (75 : ℚ) + (T - (Stefpro.T_critical ni - 2)) / 2 * 25 < 100 := by
      push_neg at hL; linarith
    exact (pyInt_lt_of_lt (n := 100) (by linarith) (by push_cast; linarith)).le
  · push_neg at hL hC
    have hq : (0 : ℚ) ≤ (T - 25) / (Stefpro.T_critical ni - 2 - 25) :=
      div_nonneg (by linarith) (by linarith)
    have hq1 : (T - 25) / (Stefpro.T_critical ni - 2 - 25) < 1 :=
      (div_lt_one (by linarith)).mpr (by linarith)
    refine ⟨pyInt_nonneg (by linarith), ?_⟩
    exact (pyInt_lt_of_lt (n := 100) (by linarith) (by push_cast; linarith)).le
  · push_neg at hH
    refine ⟨pyInt_nonneg (by linarith), ?_⟩
    exact (pyInt_lt_of_lt (n := 100) (by linarith) (by push_cast; linarith)).le

/-- Witness for C2 at `T = 20`, `NI = 1`. -/
theorem claim2_witness :
    (0 ≤ (20 : ℚ) ∧ 0 ≤ (1 : ℚ) ∧ (1 : ℚ) ≤ 1) ∧
    (0 ≤ Stefpro.risk_score 20 1 ∧ Stefpro.risk_score 20 1 ≤ 100) :=
  ⟨⟨by norm_num, by norm_num, le_refl 1⟩,
    claim2_score_in_range 20 1 (by norm_num) (by norm_num) (le_refl 1)⟩

/-- Witness for C3 at `NI = 0`. -/
theorem claim3_witness :
    (0 ≤ (0 : ℚ) ∧ (0 : ℚ) ≤ 1) ∧
    (Stefpro.T_critical 0 - 2 - 25 = 31.5 - 1.07 * (1 - 0) - 27 ∧
      (3.43 : ℚ) ≤ Stefpro.T_critical 0 - 2 - 25 ∧
      0 < Stefpro.T_critical 0 - 2 - 25 ∧
      ¬(Stefpro.T_critical 0 - 2 ≤ 25)) :=
  ⟨⟨le_refl 0, by norm_num⟩,
    claim3_denominator_safe 0 (le_refl 0) (by norm_num)⟩

/-- C10: for fixed `NI ∈ [0,1]` the integer risk score is monotone
non-decreasing in the effective temperature: whenever `0 ≤ T1 ≤ T2` the
score at `T1` is at most the score at `T2`, across all four branch
boundaries and despite the `int()` truncation in each branch. -/
theorem claim10_risk_monotone (ni T1 T2 : ℚ) (h0 : 0 ≤ ni) (h1 : ni ≤ 1) (hT1 : 0 ≤ T1)
    (h12 : T1 ≤ T2) : Stefpro.risk_score T1 ni ≤ Stefpro.risk_score T2 ni := by
  have htc1 := @T_critical_ge ni h0
  have htc2 := @T_critical_le ni h1
  by_cases a1 : T1 ≥ Stefpro.T_critical ni
  · have b1 : T2 ≥ Stefpro.T_critical ni := le_trans a1 h12
    rw [risk_score_lethal a1, risk_score_lethal b1]
  · by_cases a2 : T1 ≥ Stefpro.T_critical ni - 2
    · push_neg at a1
      have hv1 : (0:ℚ) ≤ 75 + (T1 - (Stefpro.T_critical ni - 2)) / 2 * 25 := by linarith
      have hv1' : (75:ℚ) + (T1 - (Stefpro.T_critical ni - 2)) / 2 * 25 < 100 := by linarith
      by_cases b1 : T2 ≥ Stefpro.T_critical ni
      · rw [risk_score_critical (by linarith) a2, risk_score_lethal b1]
        exact (pyInt_lt_of_lt (n := 100) hv1 (by push_cast; linarith)).le
      · have b2 : T2 ≥ Stefpro.T_critical ni - 2 := le_trans a2 h12
        rw [risk_score_critical (by linarith) a2, risk_score_critical b1 b2]
        exact pyInt_mono (by linarith)
    · by_cases a3 : T1 ≥ 25
      · push_neg at a1 a2
        have hD : (3.43:ℚ) ≤ Stefpro.T_critical ni - 2 - 25 := by linarith
        have hq : (0:ℚ) ≤ (T1 - 25) / (Stefpro.T_critical ni - 2 - 25) :=
          div_nonneg (by linarith) (by linarith)
        have hq1 : (T1 - 25) / (Stefpro.T_critical ni - 2 - 25) < 1 :=
          (div_lt_one (by linarith)).mpr (by linarith)
        have hv1 : (0:ℚ) ≤ 50 + (T1 - 25) / (Stefpro.T_critical ni - 2 - 25) * 25 := by linarith
        have hv75 : (50:ℚ) + (T1 - 25) / (Stefpro.T_critical ni - 2 - 25) * 25 < 75 := by linarith
        by_cases b1 : T2 ≥ Stefpro.T_critical ni
        · rw [risk_score_high (by linarith) (by push_neg; linarith) a3, risk_score_lethal b1]
          exact (pyInt_lt_of_lt (n := 100) hv1 (by push_cast; linarith)).le
        · by_cases b2 : T2 ≥ Stefpro.T_critical ni - 2
          · rw [risk_score_high (by linarith) (by push_neg; linarith) a3,
              risk_score_critical b1 b2]
            have h75 : (75:ℤ) ≤ pyInt (75 + (T2 - (Stefpro.T_critical ni - 2)) / 2 * 25) :=
              le_pyInt_of_le (by linarith) (by push_cast; linarith)
            have hlt : pyInt (50 + (T1 - 25) / (Stefpro.T_critical ni - 2 - 25) * 25) < 75 :=
              pyInt_lt_of_lt (n := 75) hv1 (by push_cast; linarith)
            omega
          · have b3 : T2 ≥ 25 := le_trans a3 h12
            rw [risk_score_high (by linarith) (by push_neg; linarith) a3,
              risk_score_high b1 b2 b3]
            apply pyInt_mono
            have hdiv : (T1 - 25) / (Stefpro.T_critical ni - 2 - 25) ≤
                (T2 - 25) / (Stefpro.T_critical ni - 2 - 25) :=
              div_le_div_of_nonneg_right (by linarith) (by linarith)
            linarith
      · push_neg at a1 a2 a3
        have hv1 : (0:ℚ) ≤ T1 / 25 * 50 := by linarith
        have hv50 : T1 / 25 * 50 < 50 := by linarith
        by_cases b1 : T2 ≥ Stefpro.T_critical ni
        · rw [risk_score_stable (by linarith) (by push_neg; linarith) (by push_neg; linarith),
            risk_score_lethal b1]
          exact (pyInt_lt_of_lt (n := 100) hv1 (by push_cast; linarith)).le
        · by_cases b2 : T2 ≥ Stefpro.T_critical ni - 2
          · rw [risk_score_stable (by linarith) (by push_neg; linarith) (by push_neg; linarith),
              risk_score_critical b1 b2]
            have h75 : (75:ℤ) ≤ pyInt (75 + (T2 - (Stefpro.T_critical ni - 2)) / 2 * 25) :=
              le_pyInt_of_le (by linarith) (by push_cast; linarith)
            have hlt : pyInt (T1 / 25 * 50) < 50 :=
              pyInt_lt_of_lt (n := 50) hv1 (by push_cast; linarith)
            omega
          · by_cases b3 : T2 ≥ 25
            · rw [risk_score_stable (by linarith) (by push_neg; linarith) (by push_neg; linarith),
                risk_score_high b1 b2 b3]
              have hD : (3.43:ℚ) ≤ Stefpro.T_critical ni - 2 - 25 := by linarith
              have hq2 : (0:ℚ) ≤ (T2 - 25) / (Stefpro.T_critical ni - 2 - 25) :=
                div_nonneg (by linarith) (by linarith)
              have h50 : (50:ℤ) ≤ pyInt (50 + (T2 - 25) / (Stefpro.T_critical ni - 2 - 25) * 25) :=
                le_pyInt_of_le (by linarith) (by push_cast; linarith)
              have hlt : pyInt (T1 / 25 * 50) < 50 :=
                pyInt_lt_of_lt (n := 50) hv1 (by push_cast; linarith)
              omega
            · rw [risk_score_stable (by linarith) (by push_neg; linarith) (by push_neg; linarith),
                risk_score_stable b1 b2 b3]
              exact pyInt_mono (by linarith)

/-- Witness for C10 at `NI = 1`, `T1 = 10`, `T2 = 20`. -/
theorem claim10_witness :
    (0 ≤ (1 : ℚ) ∧ (1 : ℚ) ≤ 1 ∧ 0 ≤ (10 : ℚ) ∧ (10 : ℚ) ≤ 20) ∧
    Stefpro.risk_score 10 1 ≤ Stefpro.risk_score 20 1 :=
  ⟨⟨by norm_num, le_refl 1, by norm_num, by norm_num⟩,
    claim10_risk_monotone 1 10 20 (by norm_num) (le_refl 1) (by norm_num) (by norm_num)⟩


/-- C9: on identical inputs the duplicated core computations of
stefpro.py and stefpro69.py — scenario shift, effective temperature,
lethal threshold, classification (score and tier), SMR, Q10, decay rate
and the 25-year population series with its collapse year — are
extensionally equal, so the drift between the two files does not affect
any computed engine value. -/
theorem claim9_engines_agree (temperature shift T ni : ℚ) (s : ScenarioChoice) (r : ℤ) (i : ℕ) :
    Stefpro.temp_shift s = Stefpro69.temp_shift s ∧
    Stefpro.effective_temp temperature shift = Stefpro69.effective_temp temperature shift ∧
    Stefpro.T_critical ni = Stefpro69.T_critical ni ∧
    Stefpro.classify T ni = Stefpro69.classify T ni ∧
    Stefpro.risk_score T ni = Stefpro69.risk_score T ni ∧
    Stefpro.smr T = Stefpro69.smr T ∧
    Stefpro.q10 T = Stefpro69.q10 T ∧
    Stefpro.decay_rate r = Stefpro69.decay_rate r ∧
    Stefpro.population_pct r i = Stefpro69.population_pct r i ∧
    Stefpro.population r = Stefpro69.population r ∧
    Stefpro.collapse_year r = Stefpro69.collapse_year r := by
  refine ⟨?_, rfl, rfl, rfl, rfl, rfl, rfl, rfl, rfl, rfl, rfl⟩
  cases s <;> rfl

/-- C5: whenever the remote query fails in any modelled way (exception,
non-200 status, or a 200 response with a malformed payload) the live
resolver returns exactly the geographic fallback reading, whose success
flag is false and whose source label is the geographic-model one; and on
an HTTP 200 response with a well-formed payload it returns the Kelvin
value minus 273.15 rounded to one decimal, flagged live with the
satellite source label.  Totality of the Lean function embodies the
absence of escaping exceptions. -/
theorem claim5_live_fallback (lat lon : ℝ) (month : ℕ) (o : RemoteOutcome)
    (hfail : ∀ k : ℝ, o ≠ RemoteOutcome.response 200 (some k)) :
    get_sea_temperature_live lat lon month o = get_temperature_fallback lat lon month ∧
    (get_sea_temperature_live lat lon month o).success = false ∧
    (get_sea_temperature_live lat lon month o).source = "Geographic Model (Estimated)" ∧
    ∀ k : ℝ, get_sea_temperature_live lat lon month (RemoteOutcome.response 200 (some k)) =
      { success := true, temperature := round1 (k - 273.15), source := "NOAA Satellite (Live)" } := by
  have hmain : get_sea_temperature_live lat lon month o = get_temperature_fallback lat lon month := by
    cases o with
    | failure => rfl
    | response status payload =>
        by_cases hs : status = 200
        · subst hs
          cases payload with
          | none => simp [get_sea_temperature_live]
          | some k => exact absurd rfl (hfail k)
        · simp [get_sea_temperature_live, hs]
  refine ⟨hmain, by rw [hmain]; rfl, by rw [hmain]; rfl, fun k => by simp [get_sea_temperature_live]⟩


/-- Witness for C5 at the failure outcome, `lat = lon = 0`, month 1. -/
theorem claim5_witness :
    (∀ k : ℝ, RemoteOutcome.failure ≠ RemoteOutcome.response 200 (some k)) ∧
    (get_sea_temperature_live 0 0 1 RemoteOutcome.failure = get_temperature_fallback 0 0 1 ∧
      (get_sea_temperature_live 0 0 1 RemoteOutcome.failure).success = false ∧
      (get_sea_temperature_live 0 0 1 RemoteOutcome.failure).source = "Geographic Model (Estimated)" ∧
      ∀ k : ℝ, get_sea_temperature_live 0 0 1 (RemoteOutcome.response 200 (some k)) =
        { success := true, temperature := round1 (k - 273.15), source := "NOAA Satellite (Live)" }) :=
  ⟨fun k h => RemoteOutcome.noConfusion h,
    claim5_live_fallback 0 0 1 RemoteOutcome.failure (fun k h => RemoteOutcome.noConfusion h)⟩

/-- C6: the fallback temperature equals exactly
`round1 (clamp (28·cos(|lat| in radians) + 5 + 3·sin((month − 3)·π/6)) 10 36)`,
always lies in `[10, 36]`, and for a fixed month depends on the latitude
alone (the longitude argument is ignored). -/
theorem claim6_fallback_model (lat lon : ℝ) (month : ℕ) :
    (get_temperature_fallback lat lon month).temperature =
      round1 (max 10 (min 36 (28 * Real.cos (deg2rad |lat|) + 5 +
        3 * Real.sin (((month : ℝ) - 3) * Real.pi / 6)))) ∧
    (10 : ℝ) ≤ (get_temperature_fallback lat lon month).temperature ∧
    (get_temperature_fallback lat lon month).temperature ≤ 36 ∧
    ∀ lon' : ℝ, get_temperature_fallback lat lon' month = get_temperature_fallback lat lon month := by
  set t := 28 * Real.cos (deg2rad |lat|) + 5 + 3 * Real.sin (((month : ℝ) - 3) * Real.pi / 6) with ht
  have hx1 : (10:ℝ) ≤ max 10 (min 36 t) := le_max_left _ _
  have hx2 : max 10 (min 36 t) ≤ 36 := max_le (by norm_num) (min_le_left _ _)
  have hr1 : (100:ℤ) ≤ round (10 * max 10 (min 36 t)) := by
    rw [round_eq]
    exact Int.le_floor.mpr (by push_cast; linarith)
  have hr2 : round (10 * max 10 (min 36 t)) ≤ 360 := by
    rw [round_eq]
    have h := Int.floor_lt.mpr (show (10 * max 10 (min 36 t) + 1/2 : ℝ) < ((361:ℤ):ℝ) by push_cast; linarith)
    omega
  have heq : (get_temperature_fallback lat lon month).temperature = round1 (max 10 (min 36 t)) := rfl
  refine ⟨heq, ?_, ?_, fun lon' => rfl⟩
  · rw [heq]
    unfold round1
    have : ((100:ℤ):ℝ) ≤ (round (10 * max 10 (min 36 t)) : ℝ) := Int.cast_le.mpr hr1
    push_cast at this ⊢
    linarith
  · rw [heq]
    unfold round1
    have : ((round (10 * max 10 (min 36 t)) : ℤ):ℝ) ≤ ((360:ℤ):ℝ) := Int.cast_le.mpr hr2
    push_cast at this ⊢
    linarith

/-! The population projection: find-first characterizations. -/

theorem find?_range'_iff (q : ℕ → Bool) (n : ℕ) :
    ∀ s m : ℕ, ((List.range' s n).find? q = some m ↔
      s ≤ m ∧ m < s + n ∧ q m = true ∧ ∀ j, s ≤ j → j < m → q j = false) := by
  induction n with
  | zero =>
      intro s m
      simp only [List.range'_zero, List.find?_nil]
      constructor
      · intro h; cases h
      · rintro ⟨h1, h2, -, -⟩; omega
  | succ n ih =>
      intro s m
      rw [List.range'_succ]
      by_cases hq : q s = true
      · rw [List.find?_cons_of_pos _ hq]
        constructor
        · intro h
          injection h with h
          subst h
          exact ⟨le_refl s, by omega, hq, fun j h1 h2 => by omega⟩
        · rintro ⟨h1, h2, h3, h4⟩
          have hms : m = s := by
            by_contra hne
            have hf : q s = false := h4 s (le_refl s) (by omega)
            rw [hf] at hq; cases hq
          subst hms; rfl
      · rw [List.find?_cons_of_neg _ hq]
        rw [ih (s+1) m]
        constructor
        · rintro ⟨h1, h2, h3, h4⟩
          refine ⟨by omega, by omega, h3, fun j hj1 hj2 => ?_⟩
          rcases Nat.eq_or_lt_of_le hj1 with h | h
          · subst h
            exact Bool.eq_false_iff.mpr hq
          · exact h4 j (by omega) hj2
        · rintro ⟨h1, h2, h3, h4⟩
          have hms : m ≠ s := by
            intro h; subst h; exact hq h3
          exact ⟨by omega, by omega, h3, fun j hj1 hj2 => h4 j (by omega) hj2⟩

theorem find?_range_iff (q : ℕ → Bool) (n m : ℕ) :
    ((List.range n).find? q = some m ↔
      m < n ∧ q m = true ∧ ∀ j < m, q j = false) := by
  rw [List.range_eq_range', find?_range'_iff]
  constructor
  · rintro ⟨-, h2, h3, h4⟩
    exact ⟨by omega, h3, fun j hj => h4 j (by omega) hj⟩
  · rintro ⟨h1, h2, h3⟩
    exact ⟨by omega, by omega, h2, fun j _ hj => h3 j hj⟩

theorem collapse_year_eq (r : ℤ) :
    Stefpro.collapse_year r =
      ((List.range 25).find? (fun i => decide (Stefpro.population_pct r i < 50))).map
        (fun i => 2026 + i) := by
  unfold Stefpro.collapse_year Stefpro.population
  rw [List.find?_map, Option.map_map]
  rfl

theorem pct_lt_50_iff (r : ℤ) (i : ℕ) :
    Stefpro.population_pct r i < 50 ↔
      Real.log 2 < (Stefpro.decay_rate r : ℝ) * (i : ℝ) := by
  unfold Stefpro.population_pct
  rw [show (50:ℝ) = 100 * (1/2) by norm_num]
  rw [mul_lt_mul_left (by norm_num : (0:ℝ) < 100)]
  rw [← Real.lt_log_iff_exp_lt (by norm_num : (0:ℝ) < 1/2)]
  rw [one_div, Real.log_inv]
  constructor <;> intro h <;> linarith

/-- C7: the projection built from a risk score has exactly 25 entries
for the years 2026 through 2050; entry `i` is the pair
`(2026 + i, 100·e^(−(0.05 + risk/500)·i))`; and the collapse year is
`some y` exactly when `y` is the first listed year whose population
percentage is below 50, `none` exactly when no listed year crosses.
The projection is a Lean function of the risk score alone, hence
deterministic in it. -/
theorem claim7_projection (r : ℤ) (i : ℕ) (h : i < 25) :
    (Stefpro.population r).length = 25 ∧
    (Stefpro.population r).get? i =
      some (2026 + i, 100 * Real.exp (-(0.05 + (r : ℝ)/500) * (i : ℝ))) ∧
    (∀ y, Stefpro.collapse_year r = some y ↔
      ∃ j, j < 25 ∧ y = 2026 + j ∧ Stefpro.population_pct r j < 50 ∧
        ∀ k < j, ¬(Stefpro.population_pct r k < 50)) ∧
    (Stefpro.collapse_year r = none ↔ ∀ j < 25, ¬(Stefpro.population_pct r j < 50)) := by
  have hd : ((Stefpro.decay_rate r : ℚ) : ℝ) = 0.05 + (r : ℝ)/500 := by
    unfold Stefpro.decay_rate; push_cast; norm_num
  refine ⟨by simp [Stefpro.population], ?_, ?_, ?_⟩
  · simp [Stefpro.population, List.get?_eq_getElem?, h, Stefpro.population_pct, hd]
  · intro y
    rw [collapse_year_eq]
    constructor
    · intro hy
      rcases Option.map_eq_some'.mp hy with ⟨j, hj, rfl⟩
      rw [find?_range_iff] at hj
      exact ⟨j, hj.1, rfl, by simpa using hj.2.1, fun k hk => by simpa using hj.2.2 k hk⟩
    · rintro ⟨j, hj1, rfl, hj2, hj3⟩
      have hfind : (List.range 25).find?
          (fun i => decide (Stefpro.population_pct r i < 50)) = some j := by
        rw [find?_range_iff]
        exact ⟨hj1, by simpa using hj2, fun k hk => by simpa using hj3 k hk⟩
      rw [hfind]; rfl
  · rw [collapse_year_eq]
    constructor
    · intro hnone
      have hn := Option.map_eq_none'.mp hnone
      rw [List.find?_eq_none] at hn
      intro j hj
      simpa using hn j (List.mem_range.mpr hj)
    · intro hall
      have hn : (List.range 25).find?
          (fun i => decide (Stefpro.population_pct r i < 50)) = none := by
        rw [List.find?_eq_none]
        intro x hx
        simpa using hall x (List.mem_range.mp hx)
      rw [hn]; rfl


/-- Witness for C7 at `risk = 0`, `i = 0`. -/
theorem claim7_witness :
    ((0:ℕ) < 25) ∧
    ((Stefpro.population 0).length = 25 ∧
      (Stefpro.population 0).get? 0 =
        some (2026 + 0, 100 * Real.exp (-(0.05 + ((0:ℤ) : ℝ)/500) * ((0:ℕ) : ℝ))) ∧
      (∀ y, Stefpro.collapse_year 0 = some y ↔
        ∃ j, j < 25 ∧ y = 2026 + j ∧ Stefpro.population_pct 0 j < 50 ∧
          ∀ k < j, ¬(Stefpro.population_pct 0 k < 50)) ∧
      (Stefpro.collapse_year 0 = none ↔ ∀ j < 25, ¬(Stefpro.population_pct 0 j < 50))) :=
  ⟨by norm_num, claim7_projection 0 0 (by norm_num)⟩

/-- C8: for every risk score in `[0,100]` the collapse year is defined
(the year-2050 entry is already below 50%); at risk score 0 the decay
rate is exactly 0.05, the population series is strictly decreasing, and
the collapse year is 2040. -/
theorem claim8_collapse (r : ℤ) (h0 : 0 ≤ r) (h1 : r ≤ 100) :
    (Stefpro.collapse_year r).isSome = true ∧
    Stefpro.decay_rate 0 = 0.05 ∧
    (∀ i : ℕ, Stefpro.population_pct 0 (i+1) < Stefpro.population_pct 0 i) ∧
    Stefpro.collapse_year 0 = some 2040 := by
  have hlog_lt : Real.log 2 < 0.6931471808 := Real.log_two_lt_d9
  have hlog_gt : (0.6931471803:ℝ) < Real.log 2 := Real.log_two_gt_d9
  have hd0 : ((Stefpro.decay_rate 0 : ℚ) : ℝ) = 0.05 := by
    unfold Stefpro.decay_rate; push_cast; norm_num
  refine ⟨?_, ?_, ?_, ?_⟩
  · rw [collapse_year_eq]
    have hdr : (0.05:ℝ) ≤ ((Stefpro.decay_rate r : ℚ) : ℝ) := by
      unfold Stefpro.decay_rate
      push_cast
      have hr : (0:ℝ) ≤ (r:ℝ) := by exact_mod_cast h0
      linarith
    have h24 : Stefpro.population_pct r 24 < 50 := by
      rw [pct_lt_50_iff]
      push_cast
      nlinarith
    have hex : ∃ x, x ∈ List.range 25 ∧
        (fun i => decide (Stefpro.population_pct r i < 50)) x = true :=
      ⟨24, List.mem_range.mpr (by norm_num), by simpa using h24⟩
    have hs := List.find?_isSome.mpr hex
    simpa using hs
  · norm_num [Stefpro.decay_rate]
  · intro i
    unfold Stefpro.population_pct
    rw [mul_lt_mul_left (by norm_num : (0:ℝ) < 100)]
    apply Real.exp_lt_exp.mpr
    rw [hd0]
    push_cast
    linarith
  · rw [collapse_year_eq]
    have hfind : (List.range 25).find?
        (fun i => decide (Stefpro.population_pct 0 i < 50)) = some 14 := by
      rw [find?_range_iff]
      refine ⟨by norm_num, ?_, ?_⟩
      · simp only [decide_eq_true_eq]
        rw [pct_lt_50_iff, hd0]
        push_cast
        linarith
      · intro j hj
        simp only [decide_eq_false_iff_not]
        rw [pct_lt_50_iff, hd0]
        intro hcon
        have hj13 : (j:ℝ) ≤ 13 := by exact_mod_cast Nat.lt_succ_iff.mp hj
        nlinarith
    rw [hfind]; rfl

/-- Witness for C8 at `risk = 0`. -/
theorem claim8_witness :
    ((0:ℤ) ≤ 0 ∧ (0:ℤ) ≤ 100) ∧
    ((Stefpro.collapse_year 0).isSome = true ∧
      Stefpro.decay_rate 0 = 0.05 ∧
      (∀ i : ℕ, Stefpro.population_pct 0 (i+1) < Stefpro.population_pct 0 i) ∧
      Stefpro.collapse_year 0 = some 2040) :=
  ⟨⟨le_refl 0, by norm_num⟩, claim8_collapse 0 (le_refl 0) (by norm_num)⟩

end StefGlobal
